import Mathlib

/-!
Verification of the restaurant-duty-pwa core against its specification.

The definitions below are a shallow embedding of the TypeScript source:

* types/staff.ts, types/checklist.ts, types/sync.ts — the data model;
* types/checklist.ts `calculateCompletionStats`;
* lib/constants/templates.ts — the three duty templates (ids, names, declared
  `totalTasks`, and the section/task-id structure), the session store actions
  `startChecklist`, `updateTask`, `checkForActiveSessions`;
* lib/utils/pinSecurity.ts `verifyManagerPin` (the per-manager lockout machine);
* app/checklist/[templateId]/page.tsx `handleManagerApprove`;
* app/api/submit/route.ts `validateSubmission` and `POST`;
* types/sync.ts `SYNC_CONFIG` and `calculateRetryDelay`.

Timestamps (`Date.now()`, `getTime()` on ISO strings) are modelled as natural
numbers of milliseconds; JavaScript numbers holding task counts are modelled
as `Nat`.  `Math.round(x)` on the nonnegative rationals produced here is
`⌊x + 1/2⌋` (nearest integer, ties towards +∞), exact for the magnitudes the
app produces.
-/

namespace RestaurantDuty

/-- Staff role: `'staff' | 'manager'` (types/staff.ts). -/
inductive StaffRole
  | staff
  | manager
deriving DecidableEq, Repr

/-- Lightweight staff snapshot `{id, name, role}` (types/staff.ts `StaffReference`). -/
structure StaffReference where
  id : String
  name : String
  role : StaffRole
deriving DecidableEq, Repr

/-- Task completion status `'done' | 'not_done' | 'na'` (types/checklist.ts). -/
inductive TaskCompletionStatus
  | done
  | not_done
  | na
deriving DecidableEq, Repr

/-- Task completion record (types/checklist.ts `TaskCompletion`).  Optional
fields absent in the source object are `none`. -/
structure TaskCompletion where
  taskId : String
  status : TaskCompletionStatus
  completedAt : Option Nat := none
  note : Option String := none
  inputValue : Option Int := none
  completedBy : Option StaffReference := none
deriving DecidableEq, Repr

/-- Checklist status (types/checklist.ts `ChecklistStatus`). -/
inductive ChecklistStatus
  | in_progress
  | pending_review
  | approved
  | synced
  | sync_failed
deriving DecidableEq, Repr

/-- Template identifier (types/templates.ts `TemplateId`): the three hardcoded
duty templates. -/
inductive TemplateId
  | pass_opening
  | floor_opening
  | closing
deriving DecidableEq, Repr

/-- Force-close record attached to a checklist (types/checklist.ts). -/
structure ForceClosedInfo where
  manager : StaffReference
  reason : String
  closedAt : Nat
deriving DecidableEq, Repr

/-- Checklist instance (types/checklist.ts `ChecklistInstance`).  The
`tasks : Record<string, TaskCompletion>` map is embedded as an association
list in insertion order (the task ids are non-numeric strings, so JavaScript
preserves insertion order and keys are unique). -/
structure ChecklistInstance where
  id : String
  templateId : TemplateId
  templateName : String
  status : ChecklistStatus
  startedBy : StaffReference
  manager : Option StaffReference := none
  contributors : Option (List StaffReference) := none
  deviceId : String
  tasks : List (String × TaskCompletion)
  completionPercentage : Nat
  doneCount : Nat
  notDoneCount : Nat
  naCount : Nat
  totalTasks : Nat
  startedAt : Nat
  lastModifiedAt : Nat
  submittedAt : Option Nat := none
  approvedAt : Option Nat := none
  syncedAt : Option Nat := none
  shiftNotes : Option String := none
  forceClosedBy : Option ForceClosedInfo := none
deriving DecidableEq, Repr

/-- Output record of `calculateCompletionStats` (types/checklist.ts). -/
structure CompletionStats where
  doneCount : Nat
  notDoneCount : Nat
  naCount : Nat
  completionPercentage : Nat
deriving DecidableEq, Repr

/-- JavaScript `Math.round((d / a) * 100)` for naturals `d` and `a > 0`,
computed exactly: `⌊100·d/a + 1/2⌋ = (200·d + a) / (2·a)` in natural-number
division.  (`Math.round` rounds to the nearest integer with ties towards +∞;
for the task counts the app produces, double-precision evaluation of
`(d / a) * 100` agrees with the exact rational value on which side of every
half-integer it lies, so the exact model coincides with the source.) -/
def jsRound100 (d a : Nat) : Nat :=
  (200 * d + a) / (2 * a)

/-- The completion percentage as the specification words it: the rational
`doneCount / applicable * 100` rounded to the nearest integer, ties up.
This definition follows the spec text and is compared against the
source-derived `jsRound100`. -/
def specRoundPct (d a : Nat) : Int :=
  ⌊(100 * (d : ℚ)) / (a : ℚ) + 1 / 2⌋

/-- Completion statistics from a task map (types/checklist.ts
`calculateCompletionStats`, lines 230–264).  The source iterates
`Object.values(tasks)` with a `switch` incrementing one counter per entry —
embedded as one `countP` per status.  `applicableTasks = totalTasks - naCount`
is a JavaScript number, hence computed in `Int`; the percentage is
`Math.round((doneCount / applicableTasks) * 100)` when `applicableTasks > 0`,
else `100`. -/
def calculateCompletionStats (tasks : List (String × TaskCompletion))
    (totalTasks : Nat) : CompletionStats :=
  let doneCount := tasks.countP (fun t => decide (t.2.status = TaskCompletionStatus.done))
  let notDoneCount := tasks.countP (fun t => decide (t.2.status = TaskCompletionStatus.not_done))
  let naCount := tasks.countP (fun t => decide (t.2.status = TaskCompletionStatus.na))
  let applicableTasks : Int := (totalTasks : Int) - (naCount : Int)
  let completionPercentage : Nat :=
    if 0 < applicableTasks then jsRound100 doneCount applicableTasks.toNat else 100
  { doneCount := doneCount, notDoneCount := notDoneCount, naCount := naCount,
    completionPercentage := completionPercentage }

/-- Each task entry has exactly one of the three statuses, so the three
counters always sum to the number of entries in the map. -/
lemma countP_status_sum (tasks : List (String × TaskCompletion)) :
    tasks.countP (fun t => decide (t.2.status = TaskCompletionStatus.done))
      + tasks.countP (fun t => decide (t.2.status = TaskCompletionStatus.not_done))
      + tasks.countP (fun t => decide (t.2.status = TaskCompletionStatus.na))
      = tasks.length := by
  induction tasks with
  | nil => simp
  | cons hd tl ih =>
    rcases h : hd.2.status <;>
      simp [List.countP_cons, h, Nat.add_comm, Nat.add_left_comm] <;> omega

/-- The natural-number division in `jsRound100` computes exactly the rounded
rational of the specification. -/
lemma jsRound100_eq_specRoundPct (d a : Nat) (ha : 0 < a) :
    (jsRound100 d a : Int) = specRoundPct d a := by
  have ha0 : (a : ℚ) ≠ 0 := by
    exact_mod_cast ha.ne'
  have key : (100 * (d : ℚ)) / (a : ℚ) + 1 / 2
      = (((200 * d + a : ℕ) : ℤ) : ℚ) / ((2 * a : ℕ) : ℚ) := by
    push_cast
    field_simp
    ring
  have hfloor : specRoundPct d a = ((200 * d + a : ℕ) : ℤ) / ((2 * a : ℕ) : ℤ) := by
    rw [specRoundPct, key, Rat.floor_intCast_div_natCast]
  rw [hfloor, jsRound100]
  exact_mod_cast Int.natCast_div (200 * d + a) (2 * a)

/-- A task of a duty template; only the id takes part in the session logic
(titles, priorities and input metadata are presentation-only). -/
structure DutyTask where
  id : String
deriving DecidableEq, Repr

/-- A section of a duty template (lib/constants/templates.ts). -/
structure TemplateSection where
  id : String
  tasks : List DutyTask
deriving DecidableEq, Repr

/-- A duty template: id, name, the declared `totalTasks` field, and the
section/task structure (lib/constants/templates.ts). -/
structure DutyTemplate where
  id : TemplateId
  name : String
  totalTasks : Nat
  sections : List TemplateSection
deriving DecidableEq, Repr

/-- The `PASS_OPENING_TEMPLATE` constant of lib/constants/templates.ts (lines 20–336):
declared `totalTasks := 32`; the sections below list the task ids exactly
as they appear in the source. -/
def PASS_OPENING_TEMPLATE : DutyTemplate :=
  { id := TemplateId.pass_opening, name := "Pass Opening Checklist", totalTasks := 32,
    sections := [
      ⟨"pass_initial", [⟨"pass_1"⟩, ⟨"pass_2"⟩, ⟨"pass_3"⟩]⟩,
      ⟨"pass_food_pass", [⟨"pass_4"⟩, ⟨"pass_5"⟩, ⟨"pass_6"⟩, ⟨"pass_7"⟩]⟩,
      ⟨"pass_prep_area", [⟨"pass_8"⟩, ⟨"pass_9"⟩, ⟨"pass_10"⟩, ⟨"pass_11"⟩, ⟨"pass_12"⟩, ⟨"pass_13"⟩]⟩,
      ⟨"pass_mise_en_place", [⟨"pass_14"⟩, ⟨"pass_15"⟩, ⟨"pass_16"⟩, ⟨"pass_17"⟩, ⟨"pass_18"⟩, ⟨"pass_19"⟩]⟩,
      ⟨"pass_drinks_pass", [⟨"pass_20"⟩, ⟨"pass_21"⟩, ⟨"pass_22"⟩, ⟨"pass_23"⟩, ⟨"pass_24"⟩]⟩,
      ⟨"pass_stock_check", [⟨"pass_25"⟩, ⟨"pass_26"⟩, ⟨"pass_27"⟩, ⟨"pass_28"⟩, ⟨"pass_29"⟩, ⟨"pass_30"⟩, ⟨"pass_31"⟩]⟩,
      ⟨"pass_kitchen_refill", [⟨"pass_32"⟩, ⟨"pass_33"⟩, ⟨"pass_34"⟩]⟩
    ] }

/-- The `FLOOR_OPENING_TEMPLATE` constant of lib/constants/templates.ts (lines 337–604):
declared `totalTasks := 30`; the sections below list the task ids exactly
as they appear in the source. -/
def FLOOR_OPENING_TEMPLATE : DutyTemplate :=
  { id := TemplateId.floor_opening, name := "Floor Opening Checklist", totalTasks := 30,
    sections := [
      ⟨"floor_main", [⟨"floor_1"⟩, ⟨"floor_2"⟩, ⟨"floor_3"⟩, ⟨"floor_4"⟩, ⟨"floor_5"⟩, ⟨"floor_6"⟩, ⟨"floor_7"⟩, ⟨"floor_8"⟩, ⟨"floor_9"⟩, ⟨"floor_10"⟩, ⟨"floor_11"⟩, ⟨"floor_12"⟩, ⟨"floor_13"⟩, ⟨"floor_14"⟩, ⟨"floor_15"⟩]⟩,
      ⟨"floor_stations", [⟨"floor_16"⟩, ⟨"floor_17"⟩, ⟨"floor_18"⟩, ⟨"floor_19"⟩, ⟨"floor_20"⟩, ⟨"floor_21"⟩, ⟨"floor_22"⟩, ⟨"floor_23"⟩, ⟨"floor_24"⟩, ⟨"floor_25"⟩, ⟨"floor_26"⟩, ⟨"floor_27"⟩, ⟨"floor_28"⟩, ⟨"floor_29"⟩]⟩,
      ⟨"floor_terrace", [⟨"floor_30"⟩, ⟨"floor_31"⟩, ⟨"floor_32"⟩, ⟨"floor_33"⟩, ⟨"floor_34"⟩, ⟨"floor_35"⟩]⟩
    ] }

/-- The `CLOSING_TEMPLATE` constant of lib/constants/templates.ts (lines 605–1012):
declared `totalTasks := 38`; the sections below list the task ids exactly
as they appear in the source. -/
def CLOSING_TEMPLATE : DutyTemplate :=
  { id := TemplateId.closing, name := "Closing Checklist", totalTasks := 38,
    sections := [
      ⟨"close_station_1", [⟨"close_1"⟩, ⟨"close_2"⟩, ⟨"close_3"⟩, ⟨"close_4"⟩]⟩,
      ⟨"close_station_3", [⟨"close_5"⟩, ⟨"close_6"⟩, ⟨"close_7"⟩, ⟨"close_8"⟩]⟩,
      ⟨"close_station_456", [⟨"close_9"⟩, ⟨"close_10"⟩, ⟨"close_11"⟩, ⟨"close_12"⟩, ⟨"close_13"⟩]⟩,
      ⟨"close_drink_pass", [⟨"close_14"⟩, ⟨"close_15"⟩, ⟨"close_16"⟩, ⟨"close_17"⟩, ⟨"close_18"⟩, ⟨"close_19"⟩]⟩,
      ⟨"close_floor_cleaning", [⟨"close_20"⟩, ⟨"close_21"⟩, ⟨"close_22"⟩, ⟨"close_23"⟩, ⟨"close_24"⟩, ⟨"close_25"⟩, ⟨"close_26"⟩, ⟨"close_27"⟩, ⟨"close_28"⟩]⟩,
      ⟨"close_terrace", [⟨"close_29"⟩, ⟨"close_30"⟩, ⟨"close_31"⟩, ⟨"close_32"⟩, ⟨"close_33"⟩, ⟨"close_34"⟩]⟩,
      ⟨"close_food_pass", [⟨"close_35"⟩, ⟨"close_36"⟩, ⟨"close_37"⟩, ⟨"close_38"⟩, ⟨"close_39"⟩, ⟨"close_40"⟩, ⟨"close_41"⟩, ⟨"close_42"⟩, ⟨"close_43"⟩, ⟨"close_44"⟩]⟩,
      ⟨"close_final", [⟨"close_45"⟩, ⟨"close_46"⟩, ⟨"close_47"⟩, ⟨"close_48"⟩, ⟨"close_49"⟩]⟩
    ] }

/-- The `TEMPLATES` map restricted to lookup (lib/constants/templates.ts
`getTemplate`). -/
def getTemplate : TemplateId → DutyTemplate
  | TemplateId.pass_opening => PASS_OPENING_TEMPLATE
  | TemplateId.floor_opening => FLOOR_OPENING_TEMPLATE
  | TemplateId.closing => CLOSING_TEMPLATE

/-- All task ids of a template, flattened section by section
(lib/constants/templates.ts `getAllTaskIds`). -/
def getAllTaskIds (template : DutyTemplate) : List String :=
  template.sections.flatMap (fun sec => sec.tasks.map DutyTask.id)


/-- Audit log entry as produced by `logAuditEntry` (lib/db `logAuditEntry`):
the caller supplies action, entity and actor; the store fills in a fresh id,
the timestamp and the device id, which carry no information for the claims
and are left out. -/
structure AuditLogEntry where
  action : String
  entityId : String
  entityType : String
  performedBy : Option String := none
deriving DecidableEq, Repr

/-- The `startChecklist` session action (lib/constants/templates.ts,
lines 1158–1230).  The interim all-`done` task map built at lines 1167–1196
is overwritten at lines 1200–1202 with the map sending every template task id
to `status: 'not_done'` before anything is persisted, so the embedding builds
that final map directly.  `deviceId` is the local device id from
`getDeviceId()`, `newId` the generated UUID and `now` the current time; the
result pairs the persisted instance with the `checklist_started` audit
entry. -/
def startChecklist (templateId : TemplateId) (staff : StaffReference)
    (deviceId : String) (newId : String) (now : Nat) :
    ChecklistInstance × AuditLogEntry :=
  let template := getTemplate templateId
  let taskIds := getAllTaskIds template
  let tasks : List (String × TaskCompletion) :=
    taskIds.map (fun i => (i, { taskId := i, status := TaskCompletionStatus.not_done }))
  let stats := calculateCompletionStats tasks template.totalTasks
  ({ id := newId
     templateId := templateId
     templateName := template.name
     status := ChecklistStatus.in_progress
     startedBy := staff
     deviceId := deviceId
     tasks := tasks
     completionPercentage := stats.completionPercentage
     doneCount := stats.doneCount
     notDoneCount := stats.notDoneCount
     naCount := stats.naCount
     totalTasks := template.totalTasks
     startedAt := now
     lastModifiedAt := now },
   { action := "checklist_started", entityId := newId, entityType := "checklist",
     performedBy := some staff.id })

/-- JavaScript object spread `{...tasks, [taskId]: entry}` on a string-keyed
record: an existing key keeps its position and receives the new value, a new
key is appended.  Keys are unique in every map the store builds. -/
def setTaskEntry (tasks : List (String × TaskCompletion)) (taskId : String)
    (entry : TaskCompletion) : List (String × TaskCompletion) :=
  if tasks.any (fun p => p.1 == taskId) then
    tasks.map (fun p => if p.1 == taskId then (p.1, entry) else p)
  else
    tasks ++ [(taskId, entry)]

/-- The `updateTask` session action (lib/constants/templates.ts,
lines 1259–1302) on the current checklist: builds the rewritten entry with
`completedAt := now` and `completedBy := currentChecklist.startedBy`, splices
it into the task map, recomputes the three counters and the percentage from
the full map via `calculateCompletionStats`, and bumps `lastModifiedAt`.
The action's signature carries no staff snapshot. -/
def updateTask (chk : ChecklistInstance) (taskId : String)
    (status : TaskCompletionStatus) (note : Option String)
    (inputValue : Option Int) (now : Nat) : ChecklistInstance :=
  let updatedTask : TaskCompletion :=
    { taskId := taskId, status := status, completedAt := some now,
      note := note, inputValue := inputValue, completedBy := some chk.startedBy }
  let updatedTasks := setTaskEntry chk.tasks taskId updatedTask
  let stats := calculateCompletionStats updatedTasks chk.totalTasks
  { chk with
    tasks := updatedTasks
    doneCount := stats.doneCount
    notDoneCount := stats.notDoneCount
    naCount := stats.naCount
    completionPercentage := stats.completionPercentage
    lastModifiedAt := now }

/-- Active-session snapshot (types/checklist.ts `ActiveSession`). -/
structure ActiveSession where
  checklistId : String
  templateId : TemplateId
  templateName : String
  staffName : String
  deviceId : String
  startedAt : Nat
  lastActivityAt : Nat
  completionPercentage : Nat
  isOwnDevice : Bool
deriving DecidableEq, Repr

/-- The snapshot object returned by `checkForActiveSessions` for the selected
instance (lib/constants/templates.ts, lines 1373–1383). -/
def sessionSnapshot (c : ChecklistInstance) (deviceId : String) : ActiveSession :=
  { checklistId := c.id
    templateId := c.templateId
    templateName := c.templateName
    staffName := c.startedBy.name
    deviceId := c.deviceId
    startedAt := c.startedAt
    lastActivityAt := c.lastModifiedAt
    completionPercentage := c.completionPercentage
    isOwnDevice := c.deviceId == deviceId }

/-- The Dexie query of `checkForActiveSessions`: instances with the requested
`templateId` whose status is `in_progress` or `pending_review`, in store
order. -/
def activeMatches (store : List ChecklistInstance) (templateId : TemplateId) :
    List ChecklistInstance :=
  store.filter (fun c => decide (c.templateId = templateId ∧
    (c.status = ChecklistStatus.in_progress ∨ c.status = ChecklistStatus.pending_review)))

/-- Head of the stable descending sort by `lastModifiedAt` used at
lines 1367–1371 (`sort((a, b) => b.lastModifiedAt - a.lastModifiedAt)[0]`):
the first element of the array whose `lastModifiedAt` is maximal
(JavaScript `Array.prototype.sort` is stable, so ties keep store order). -/
def mostRecentOf (c : ChecklistInstance) (cs : List ChecklistInstance) :
    ChecklistInstance :=
  cs.foldl (fun best x => if best.lastModifiedAt < x.lastModifiedAt then x else best) c

/-- The `checkForActiveSessions` session action (lib/constants/templates.ts,
lines 1348–1388): query the matching active instances, return `none` when
there are none, otherwise the snapshot of the most recently modified one,
with `isOwnDevice := session.deviceId === deviceId`. -/
def checkForActiveSessions (store : List ChecklistInstance)
    (templateId : TemplateId) (deviceId : String) : Option ActiveSession :=
  match activeMatches store templateId with
  | [] => none
  | c :: cs => some (sessionSnapshot (mostRecentOf c cs) deviceId)

/-- The selected session is one of the candidates. -/
lemma mostRecentOf_mem (c : ChecklistInstance) (cs : List ChecklistInstance) :
    mostRecentOf c cs ∈ c :: cs := by
  induction cs generalizing c with
  | nil => simp [mostRecentOf]
  | cons x xs ih =>
    by_cases hlt : c.lastModifiedAt < x.lastModifiedAt
    · have step : mostRecentOf c (x :: xs) = mostRecentOf x xs := by
        simp [mostRecentOf, hlt]
      rw [step]
      rcases List.mem_cons.1 (ih x) with h1 | h1
      · rw [h1]
        simp
      · simp [h1]
    · have step : mostRecentOf c (x :: xs) = mostRecentOf c xs := by
        simp [mostRecentOf, hlt]
      rw [step]
      rcases List.mem_cons.1 (ih c) with h1 | h1
      · rw [h1]
        simp
      · simp [h1]

/-- The selected session has the greatest `lastModifiedAt` among the
candidates. -/
lemma mostRecentOf_ge (c : ChecklistInstance) (cs : List ChecklistInstance) :
    ∀ d ∈ c :: cs, d.lastModifiedAt ≤ (mostRecentOf c cs).lastModifiedAt := by
  induction cs generalizing c with
  | nil =>
    intro d hd
    simp at hd
    simp [mostRecentOf, hd]
  | cons x xs ih =>
    intro d hd
    by_cases hlt : c.lastModifiedAt < x.lastModifiedAt
    · have step : mostRecentOf c (x :: xs) = mostRecentOf x xs := by
        simp [mostRecentOf, hlt]
      rw [step]
      rcases List.mem_cons.1 hd with h1 | h1
      · subst h1
        exact le_trans (le_of_lt hlt) (ih x x (by simp))
      · exact ih x d h1
    · have step : mostRecentOf c (x :: xs) = mostRecentOf c xs := by
        simp [mostRecentOf, hlt]
      rw [step]
      rcases List.mem_cons.1 hd with h1 | h1
      · subst h1
        exact ih d d (by simp)
      · rcases List.mem_cons.1 h1 with h2 | h2
        · subst h2
          exact le_trans (Nat.le_of_not_lt hlt) (ih c c (by simp))
        · exact ih c d (by simp [h2])

/-- Splicing an entry into a task map makes it the entry found for its key
(the source reads the updated map back with `tasks[taskId]`). -/
lemma find?_setTaskEntry (tasks : List (String × TaskCompletion))
    (taskId : String) (entry : TaskCompletion) :
    (setTaskEntry tasks taskId entry).find? (fun p => p.1 == taskId)
      = some (taskId, entry) := by
  unfold setTaskEntry
  by_cases h : tasks.any (fun p => p.1 == taskId)
  · rw [if_pos h]
    induction tasks with
    | nil => simp at h
    | cons hd tl ih =>
      by_cases hk : (hd.1 == taskId) = true
      · have hkey : hd.1 = taskId := eq_of_beq hk
        rw [List.map_cons, if_pos hk, List.find?_cons_of_pos _ (by simpa using hk), hkey]
      · have htl : tl.any (fun p => p.1 == taskId) = true := by
          rcases List.any_eq_true.1 h with ⟨p, hp, hpk⟩
          rcases List.mem_cons.1 hp with h1 | h1
          · exact absurd (h1 ▸ hpk) hk
          · exact List.any_eq_true.2 ⟨p, h1, hpk⟩
        rw [List.map_cons, if_neg hk, List.find?_cons_of_neg _ (by simpa using hk)]
        exact ih htl
  · rw [if_neg h]
    have hnone : tasks.find? (fun p => p.1 == taskId) = none := by
      rw [List.find?_eq_none]
      intro p hp
      intro hpk
      exact h (List.any_eq_true.2 ⟨p, hp, hpk⟩)
    rw [List.find?_append, hnone]
    simp

/-- Manager record (types/staff.ts `Manager`): a staff record carrying the
PIN digest and the lockout state. -/
structure ManagerRecord where
  id : String
  name : String
  role : StaffRole
  pinHash : String
  failedAttempts : Nat
  lockedUntil : Option Nat := none
deriving DecidableEq, Repr

/-- PIN verification error kinds (types/staff.ts `PinVerificationResult`). -/
inductive PinError
  | invalid_pin
  | account_locked
  | not_found
deriving DecidableEq, Repr

/-- Result of `verifyManagerPin` (types/staff.ts `PinVerificationResult`). -/
structure PinVerificationResult where
  success : Bool
  error : Option PinError := none
  lockoutRemaining : Option Nat := none
  attemptsRemaining : Option Int := none
deriving DecidableEq, Repr

/-- PIN security constants (types/staff.ts `PIN_SECURITY`). -/
structure PinSecurityConfig where
  PIN_LENGTH : Nat
  MAX_ATTEMPTS : Nat
  LOCKOUT_DURATION_MS : Nat
deriving DecidableEq, Repr

/-- `PIN_SECURITY = { PIN_LENGTH: 4, MAX_ATTEMPTS: 3, LOCKOUT_DURATION_MS: 5*60*1000 }`. -/
def PIN_SECURITY : PinSecurityConfig :=
  { PIN_LENGTH := 4, MAX_ATTEMPTS := 3, LOCKOUT_DURATION_MS := 5 * 60 * 1000 }

/-- Digest of `hashPin` (lib/utils/pinSecurity.ts, lines 25–41).  The source
feeds the string `salt + ":" + managerId + ":" + pin` to SHA-256 (an external
SubtleCrypto call); the lockout machine depends only on equality of digests,
so the hash is modelled by the injective preimage string itself. -/
def hashPin (salt managerId pin : String) : String :=
  salt ++ ":" ++ managerId ++ ":" ++ pin

/-- The hash-compare half of `verifyManagerPin` (lib/utils/pinSecurity.ts,
lines 103–147).  `m` is the in-memory record fetched at the top of the call;
`stored` is the record currently persisted (they differ exactly when an
expired lockout was just reset, because the source resets the database copy
but keeps using the stale `manager` object).  Returns the result paired with
the record persisted after the call: Dexie `update` patches only the listed
fields onto `stored`. -/
def verifyPinCheck (salt : String) (m stored : ManagerRecord) (pin : String)
    (now : Nat) : PinVerificationResult × ManagerRecord :=
  if hashPin salt m.id pin == m.pinHash then
    ({ success := true },
     { stored with failedAttempts := 0, lockedUntil := none })
  else
    let newFailedAttempts := m.failedAttempts + 1
    let attemptsRemaining : Int :=
      (PIN_SECURITY.MAX_ATTEMPTS : Int) - (newFailedAttempts : Int)
    if PIN_SECURITY.MAX_ATTEMPTS ≤ newFailedAttempts then
      ({ success := false, error := some PinError.account_locked,
         lockoutRemaining := some (PIN_SECURITY.LOCKOUT_DURATION_MS / 1000) },
       { stored with failedAttempts := newFailedAttempts,
                     lockedUntil := some (now + PIN_SECURITY.LOCKOUT_DURATION_MS) })
    else
      ({ success := false, error := some PinError.invalid_pin,
         attemptsRemaining := some attemptsRemaining },
       { stored with failedAttempts := newFailedAttempts })

/-- `verifyManagerPin` (lib/utils/pinSecurity.ts, lines 71–152).  `record` is
the staff-store row for the requested manager id (`none` when absent); the
result is paired with the row persisted after the call.  When a lockout has
expired the source persists `failedAttempts: 0, lockedUntil: undefined` and
then continues with the stale in-memory `manager` object, which is passed to
`verifyPinCheck` as `m` alongside the reset `stored` copy.
`Math.ceil((lockExpiry - now) / 1000)` is `(lockExpiry - now + 999) / 1000`
on naturals. -/
def verifyManagerPin (salt : String) (record : Option ManagerRecord)
    (pin : String) (now : Nat) :
    PinVerificationResult × Option ManagerRecord :=
  match record with
  | none => ({ success := false, error := some PinError.not_found }, none)
  | some m =>
    if m.role ≠ StaffRole.manager then
      ({ success := false, error := some PinError.not_found }, some m)
    else
      match m.lockedUntil with
      | some lockExpiry =>
        if now < lockExpiry then
          ({ success := false, error := some PinError.account_locked,
             lockoutRemaining := some ((lockExpiry - now + 999) / 1000) }, some m)
        else
          let reset : ManagerRecord := { m with failedAttempts := 0, lockedUntil := none }
          let r := verifyPinCheck salt m reset pin now
          (r.1, some r.2)
      | none =>
        let r := verifyPinCheck salt m m pin now
        (r.1, some r.2)

/-- Pipeline step names (types/sync.ts `SyncError.step`). -/
inductive SyncStep
  | sheets_write
  | pdf_generate
  | pdf_upload
  | sheets_update
deriving DecidableEq, Repr

/-- Submission status through the sync pipeline (types/sync.ts
`SubmissionStatus`). -/
inductive SubmissionStatus
  | pending
  | sheets_done
  | complete
  | failed
deriving DecidableEq, Repr

/-- PDF generation status, tracked separately for partial recovery
(types/sync.ts `PdfStatus`). -/
inductive PdfStatus
  | pending
  | generated
  | uploaded
  | failed
deriving DecidableEq, Repr

/-- Error record for sync failures (types/sync.ts `SyncError`). -/
structure SyncError where
  timestamp : Nat
  step : SyncStep
  message : String
  statusCode : Option Nat := none
  retryable : Bool
deriving DecidableEq, Repr

/-- Immutable snapshot of checklist data at submission time (types/sync.ts
`SubmissionSnapshot`).  Date and time-of-day strings are copied verbatim and
stay `String`. -/
structure SubmissionSnapshot where
  date : String
  area : String
  templateName : String
  templateId : TemplateId
  staff : StaffReference
  manager : StaffReference
  completionPercentage : Nat
  doneCount : Nat
  notDoneCount : Nat
  naCount : Nat
  totalTasks : Nat
  startedAt : Nat
  submittedAt : Nat
  approvedAt : Nat
  shiftNotes : Option String := none
  tasks : List (String × TaskCompletion)
  deviceId : String
deriving DecidableEq, Repr

/-- Submission record stored in the IndexedDB outbox (types/sync.ts
`PendingSubmission`). -/
structure PendingSubmission where
  id : String
  checklistId : String
  status : SubmissionStatus
  pdfStatus : PdfStatus
  sheetsRowId : Option String := none
  driveFileId : Option String := none
  driveFileUrl : Option String := none
  retryCount : Nat
  maxRetries : Nat
  createdAt : Nat
  lastAttemptAt : Option Nat := none
  completedAt : Option Nat := none
  errorLog : List SyncError
  snapshot : SubmissionSnapshot
deriving DecidableEq, Repr

/-- The database writes performed by the manager-approval handler: the
checklist row that is put, and every submission row that is put or added. -/
structure ApproveEffect where
  checklist : ChecklistInstance
  submissionsEnqueued : List PendingSubmission
deriving DecidableEq, Repr

/-- The `handleManagerApprove` callback (app/checklist/[templateId]/page.tsx,
lines 254–271), invoked by `ManagerAuthModal` only after `verifyManagerPin`
returned success.  It copies the checklist with `status: 'approved'`, the
manager snapshot (role `'manager'`), `approvedAt := now`, the shift notes and
a bumped `lastModifiedAt`, and performs exactly one database write:
`db.checklists.put(updatedChecklist)`.  No write to `db.submissions` occurs
in the handler (nor anywhere else in the page), so the enqueued-submission
list is empty. -/
def handleManagerApprove (chk : ChecklistInstance) (managerId managerName : String)
    (shiftNotes : Option String) (now : Nat) : ApproveEffect :=
  { checklist :=
      { chk with
        status := ChecklistStatus.approved
        manager := some { id := managerId, name := managerName, role := StaffRole.manager }
        approvedAt := some now
        shiftNotes := shiftNotes
        lastModifiedAt := now }
    submissionsEnqueued := [] }

/-- Retry configuration (types/sync.ts `SYNC_CONFIG`). -/
structure SyncConfig where
  MAX_RETRIES : Nat
  BASE_RETRY_DELAY_MS : Nat
  MAX_RETRY_DELAY_MS : Nat
  BACKOFF_MULTIPLIER : Nat
  SYNC_INTERVAL_MS : Nat
  PENDING_SYNC_INTERVAL_MS : Nat
deriving DecidableEq, Repr

/-- `SYNC_CONFIG` constants (types/sync.ts, lines 278–296). -/
def SYNC_CONFIG : SyncConfig :=
  { MAX_RETRIES := 5
    BASE_RETRY_DELAY_MS := 1000
    MAX_RETRY_DELAY_MS := 60000
    BACKOFF_MULTIPLIER := 2
    SYNC_INTERVAL_MS := 30000
    PENDING_SYNC_INTERVAL_MS := 5000 }

/-- `calculateRetryDelay` (types/sync.ts, lines 301–305):
`Math.min(BASE_RETRY_DELAY_MS * Math.pow(BACKOFF_MULTIPLIER, retryCount),
MAX_RETRY_DELAY_MS)`.  `1000 * 2^n` is an exact power-of-two multiple of 125,
so double-precision `Math.pow` agrees with the exact value whenever the
product is below the cap, and any inexact or infinite value is already above
the cap; the natural-number model therefore coincides with the source for
every retry count. -/
def calculateRetryDelay (retryCount : Nat) : Nat :=
  let delay := SYNC_CONFIG.BASE_RETRY_DELAY_MS * SYNC_CONFIG.BACKOFF_MULTIPLIER ^ retryCount
  min delay SYNC_CONFIG.MAX_RETRY_DELAY_MS

/-- Modelled from the spec: the Sync Outbox drain step.  The outbox client
code (`lib/stores/useSyncStore.ts` and `hooks/useOfflineSync.ts` in
PROJECT_STRUCTURE.md) is not among the provided sources; §4.3 of the spec
states the pipeline order `sheets_write`, `pdf_generate`, `pdf_upload`,
`sheets_update` and the resumability rule "on retry, the outbox inspects
`status`/`pdfStatus` and skips already-completed steps".  `retrySteps`
returns, in pipeline order, the steps a retry executes: each step runs
exactly when the persisted progress fields record it as not yet
completed. -/
def retrySteps (status : SubmissionStatus) (pdfStatus : PdfStatus) : List SyncStep :=
  (if status = SubmissionStatus.pending then [SyncStep.sheets_write] else [])
    ++ (if pdfStatus = PdfStatus.pending then [SyncStep.pdf_generate] else [])
    ++ (if pdfStatus = PdfStatus.pending ∨ pdfStatus = PdfStatus.generated then
          [SyncStep.pdf_upload] else [])
    ++ (if status ≠ SubmissionStatus.complete then [SyncStep.sheets_update] else [])

/-- Modelled from the spec: §7 partitions sync errors into "retryable
(timeouts, 5xx, transient network) and non-retryable (4xx validation against
the external API)"; the classifying client code is not among the provided
sources.  A 4xx status code is never retryable. -/
def isRetryableStatusCode (code : Nat) : Bool :=
  if 400 ≤ code ∧ code < 500 then false else true

/-- A parsed JSON value, as delivered by `request.json()` in the submission
endpoint.  Objects are association lists of string keys (unique after
`JSON.parse`, last duplicate winning); numbers are integral in every payload
the app sends. -/
inductive JsonValue
  | jnull
  | jbool (b : Bool)
  | jnum (n : Int)
  | jstr (s : String)
  | jarr (items : List JsonValue)
  | jobj (fields : List (String × JsonValue))

/-- Property access `value[key]` on a parsed JSON value: defined on objects,
`undefined` (here `none`) on everything else. -/
def getField : JsonValue → String → Option JsonValue
  | JsonValue.jobj fields, key => (fields.find? (fun p => p.1 == key)).map Prod.snd
  | _, _ => none

/-- The string keys the JavaScript `in` operator sees on a value of
`typeof === 'object'`: the field names of an object, the element indices of
an array, nothing otherwise. -/
def jsonFieldKeys : JsonValue → Option (List String)
  | JsonValue.jobj fields => some (fields.map Prod.fst)
  | JsonValue.jarr items => some ((List.range items.length).map toString)
  | _ => none

/-- The required snapshot fields of `validateSubmission`
(app/api/submit/route.ts, lines 44–61). -/
def requiredFields : List String :=
  ["date", "area", "templateName", "templateId", "staff", "manager",
   "completionPercentage", "doneCount", "notDoneCount", "naCount",
   "totalTasks", "startedAt", "submittedAt", "approvedAt", "tasks", "deviceId"]

/-- Key presence `field in snapshot` for the snapshot value of a request
body. -/
def hasSnapshotField (body : JsonValue) (field : String) : Bool :=
  match getField body "snapshot" with
  | some snap =>
    match jsonFieldKeys snap with
    | some keys => keys.contains field
    | none => false
  | none => false

/-- `validateSubmission` (app/api/submit/route.ts, lines 33–68): the body must
be a truthy object, `submissionId` a non-empty string, `snapshot` a truthy
value of object type, and every required field a key of `snapshot` (the
`in` operator checks presence only, not the value).  A top-level array has
`typeof 'object'` but no `submissionId` string property, so it fails the
second check; it is mapped to `false` directly. -/
def validateSubmission (body : JsonValue) : Bool :=
  match body with
  | JsonValue.jobj _ =>
    (match getField body "submissionId" with
     | some (JsonValue.jstr s) => s != ""
     | _ => false)
    &&
    (match getField body "snapshot" with
     | some snap =>
       match jsonFieldKeys snap with
       | some keys => requiredFields.all (fun f => keys.contains f)
       | none => false
     | none => false)
  | _ => false

/-- JavaScript truthiness of a parsed JSON value. -/
def jsTruthy : JsonValue → Bool
  | JsonValue.jnull => false
  | JsonValue.jbool b => b
  | JsonValue.jnum n => n != 0
  | JsonValue.jstr s => s != ""
  | JsonValue.jarr _ => true
  | JsonValue.jobj _ => true

/-- The JSON body and HTTP status of a `NextResponse` from the submission
endpoint (types/sync.ts `SubmitResponse` plus the status code). -/
structure SubmitApiResponse where
  httpStatus : Nat
  success : Bool
  status : String
  submissionId : JsonValue
  sheetsRowId : Option String := none
  driveFileId : Option String := none
  driveFileUrl : Option String := none
  error : Option String := none

/-- The `POST` handler of app/api/submit/route.ts (lines 115–180) on a parsed
request body.  An invalid payload is answered with HTTP 400,
`success: false`, `status: 'failed'` and `submissionId: body?.submissionId ||
'unknown'`.  A valid payload runs the placeholder pipeline (the Sheets, PDF
and Drive calls are TODO stubs producing fixed ids) and is answered with the
default HTTP 200, `success: true` and `status: 'complete'`. -/
def POSTsubmit (body : JsonValue) : SubmitApiResponse :=
  if validateSubmission body then
    { httpStatus := 200
      success := true
      status := "complete"
      submissionId := (getField body "submissionId").getD JsonValue.jnull
      sheetsRowId := some "placeholder_row_id"
      driveFileId := some "placeholder_drive_id"
      driveFileUrl := some "https://drive.google.com/file/d/placeholder_drive_id/view" }
  else
    { httpStatus := 400
      success := false
      status := "failed"
      submissionId :=
        match getField body "submissionId" with
        | some v => if jsTruthy v then v else JsonValue.jstr "unknown"
        | none => JsonValue.jstr "unknown"
      error := some "Invalid request payload" }

/-- A staff member used as concrete input in evaluations. -/
def staff0 : StaffReference :=
  { id := "staff-1", name := "Dana", role := StaffRole.staff }

/-- A one-task checklist in review, used as concrete input in evaluations. -/
def chk0 : ChecklistInstance :=
  { id := "chk-0", templateId := TemplateId.closing,
    templateName := "Closing Checklist", status := ChecklistStatus.pending_review,
    startedBy := staff0, deviceId := "device-A",
    tasks := [("t1", { taskId := "t1", status := TaskCompletionStatus.done,
                       completedAt := some 10, completedBy := some staff0 })],
    completionPercentage := 100, doneCount := 1, notDoneCount := 0, naCount := 0,
    totalTasks := 1, startedAt := 1, lastModifiedAt := 2, submittedAt := some 3 }

/-- A two-entry task map (one done, one na) used as concrete input. -/
def ts0 : List (String × TaskCompletion) :=
  [("a", { taskId := "a", status := TaskCompletionStatus.done }),
   ("b", { taskId := "b", status := TaskCompletionStatus.na })]

/-- The three counters of `calculateCompletionStats` are the per-status
counts of the task map. -/
lemma calc_counts (tasks : List (String × TaskCompletion)) (totalTasks : Nat) :
    (calculateCompletionStats tasks totalTasks).doneCount
        = tasks.countP (fun t => decide (t.2.status = TaskCompletionStatus.done))
      ∧ (calculateCompletionStats tasks totalTasks).notDoneCount
        = tasks.countP (fun t => decide (t.2.status = TaskCompletionStatus.not_done))
      ∧ (calculateCompletionStats tasks totalTasks).naCount
        = tasks.countP (fun t => decide (t.2.status = TaskCompletionStatus.na)) :=
  ⟨rfl, rfl, rfl⟩

/-- The percentage of `calculateCompletionStats`, characterised through the
other output fields. -/
lemma calc_pct (tasks : List (String × TaskCompletion)) (totalTasks : Nat) :
    (calculateCompletionStats tasks totalTasks).completionPercentage
      = (if 0 < (totalTasks : Int) - ((calculateCompletionStats tasks totalTasks).naCount : Int)
         then jsRound100 (calculateCompletionStats tasks totalTasks).doneCount
           ((totalTasks : Int) - ((calculateCompletionStats tasks totalTasks).naCount : Int)).toNat
         else 100) :=
  rfl

/-- C1: for every task map assigning one of the three statuses to each of the
instance's `totalTasks` tasks, the counters of `calculateCompletionStats`
satisfy `doneCount + notDoneCount + naCount = totalTasks`; the stored
percentage is `round(doneCount / (totalTasks - naCount) * 100)` whenever
`totalTasks > naCount` and `100` otherwise; and the counters stored by
`updateTask` and `startChecklist` are exactly the output of
`calculateCompletionStats` on the instance's task map. -/
theorem calculateCompletionStats_invariant
    (tasks : List (String × TaskCompletion)) (totalTasks : Nat) :
    (tasks.length = totalTasks →
      (calculateCompletionStats tasks totalTasks).doneCount
        + (calculateCompletionStats tasks totalTasks).notDoneCount
        + (calculateCompletionStats tasks totalTasks).naCount = totalTasks)
    ∧ ((calculateCompletionStats tasks totalTasks).naCount < totalTasks →
        ((calculateCompletionStats tasks totalTasks).completionPercentage : Int)
          = specRoundPct (calculateCompletionStats tasks totalTasks).doneCount
              (totalTasks - (calculateCompletionStats tasks totalTasks).naCount))
    ∧ (totalTasks ≤ (calculateCompletionStats tasks totalTasks).naCount →
        (calculateCompletionStats tasks totalTasks).completionPercentage = 100)
    ∧ (∀ chk taskId status note inputValue now,
        ((updateTask chk taskId status note inputValue now).doneCount,
          (updateTask chk taskId status note inputValue now).notDoneCount,
          (updateTask chk taskId status note inputValue now).naCount,
          (updateTask chk taskId status note inputValue now).completionPercentage)
          = ((calculateCompletionStats (updateTask chk taskId status note inputValue now).tasks
                chk.totalTasks).doneCount,
             (calculateCompletionStats (updateTask chk taskId status note inputValue now).tasks
                chk.totalTasks).notDoneCount,
             (calculateCompletionStats (updateTask chk taskId status note inputValue now).tasks
                chk.totalTasks).naCount,
             (calculateCompletionStats (updateTask chk taskId status note inputValue now).tasks
                chk.totalTasks).completionPercentage))
    ∧ (∀ templateId staff deviceId newId now,
        ((startChecklist templateId staff deviceId newId now).1.doneCount,
          (startChecklist templateId staff deviceId newId now).1.notDoneCount,
          (startChecklist templateId staff deviceId newId now).1.naCount,
          (startChecklist templateId staff deviceId newId now).1.completionPercentage)
          = ((calculateCompletionStats (startChecklist templateId staff deviceId newId now).1.tasks
                (getTemplate templateId).totalTasks).doneCount,
             (calculateCompletionStats (startChecklist templateId staff deviceId newId now).1.tasks
                (getTemplate templateId).totalTasks).notDoneCount,
             (calculateCompletionStats (startChecklist templateId staff deviceId newId now).1.tasks
                (getTemplate templateId).totalTasks).naCount,
             (calculateCompletionStats (startChecklist templateId staff deviceId newId now).1.tasks
                (getTemplate templateId).totalTasks).completionPercentage)) := by
  obtain ⟨hd, hnd, hna⟩ := calc_counts tasks totalTasks
  refine ⟨?_, ?_, ?_, ?_, ?_⟩
  · intro hlen
    rw [hd, hnd, hna, countP_status_sum, hlen]
  · intro hlt
    rw [calc_pct tasks totalTasks]
    have hpos : 0 < (totalTasks : Int)
        - ((calculateCompletionStats tasks totalTasks).naCount : Int) := by
      omega
    rw [if_pos hpos]
    have htn : ((totalTasks : Int)
        - ((calculateCompletionStats tasks totalTasks).naCount : Int)).toNat
        = totalTasks - (calculateCompletionStats tasks totalTasks).naCount := by
      omega
    rw [htn]
    exact jsRound100_eq_specRoundPct _ _ (by omega)
  · intro hle
    rw [calc_pct tasks totalTasks]
    rw [if_neg (by omega)]
  · intro chk taskId status note inputValue now
    rfl
  · intro templateId staff deviceId newId now
    rfl

/-- Concrete instantiation of `calculateCompletionStats_invariant`: on the
two-task map `ts0` with `totalTasks = 2` the counters sum to 2 and the
percentage is the rounded rational; with `totalTasks = 1` every applicable
task is N/A and the percentage defaults to 100. -/
theorem calculateCompletionStats_invariant_witness :
    ((calculateCompletionStats ts0 2).doneCount
        + (calculateCompletionStats ts0 2).notDoneCount
        + (calculateCompletionStats ts0 2).naCount = 2)
    ∧ ((calculateCompletionStats ts0 2).completionPercentage : Int)
        = specRoundPct (calculateCompletionStats ts0 2).doneCount
            (2 - (calculateCompletionStats ts0 2).naCount)
    ∧ (calculateCompletionStats ts0 1).completionPercentage = 100 :=
  ⟨(calculateCompletionStats_invariant ts0 2).1 (by decide),
   (calculateCompletionStats_invariant ts0 2).2.1 (by decide),
   (calculateCompletionStats_invariant ts0 1).2.2.1 (by decide)⟩

/-- A manager record that was locked (three failed attempts) and whose
lockout window has expired long before the evaluation time. -/
def mgr0 : ManagerRecord :=
  { id := "mgr-1", name := "Alice", role := StaffRole.manager,
    pinHash := hashPin "salt-1" "mgr-1" "4821", failedAttempts := 3,
    lockedUntil := some 1000 }

/-- C2 (behaviour of the code at the failing input): for a manager whose
lockout has expired (`lockedUntil = 1000`, `now = 400000`), a wrong PIN is
answered with `account_locked` and 300 seconds remaining, and the persisted
record is re-locked with `failedAttempts = 4` and `lockedUntil = now + 5min`
— the mismatch branch adds 1 to the stale in-memory `failedAttempts = 3`
instead of the freshly reset 0, so the claimed `invalid_pin` with
`attemptsRemaining = 2` never happens. -/
theorem verifyManagerPin_relock_after_expiry :
    (verifyManagerPin "salt-1" (some mgr0) "1111" 400000).1
      = { success := false, error := some PinError.account_locked,
          lockoutRemaining := some 300 }
    ∧ (verifyManagerPin "salt-1" (some mgr0) "1111" 400000).2
      = some { mgr0 with failedAttempts := 4, lockedUntil := some 700000 } := by
  decide

/-- C3 (counterexample): approving the concrete checklist `chk0` enqueues no
`PendingSubmission` at all, not exactly one. -/
theorem handleManagerApprove_no_submission_cex :
    ¬ ((handleManagerApprove chk0 "mgr-1" "Alice" none 500).submissionsEnqueued.length = 1) := by
  decide

/-- C3 (amended): manager approval — reached only after a successful PIN
verification — sets the checklist status to `approved` with `approvedAt`,
the manager snapshot and the shift notes, bumps `lastModifiedAt`, and
enqueues no `PendingSubmission`. -/
theorem handleManagerApprove_spec (chk : ChecklistInstance)
    (managerId managerName : String) (shiftNotes : Option String) (now : Nat) :
    (handleManagerApprove chk managerId managerName shiftNotes now).checklist.status
        = ChecklistStatus.approved
    ∧ (handleManagerApprove chk managerId managerName shiftNotes now).checklist.approvedAt
        = some now
    ∧ (handleManagerApprove chk managerId managerName shiftNotes now).checklist.manager
        = some { id := managerId, name := managerName, role := StaffRole.manager }
    ∧ (handleManagerApprove chk managerId managerName shiftNotes now).checklist.shiftNotes
        = shiftNotes
    ∧ (handleManagerApprove chk managerId managerName shiftNotes now).checklist.lastModifiedAt
        = now
    ∧ (handleManagerApprove chk managerId managerName shiftNotes now).submissionsEnqueued
        = [] :=
  ⟨rfl, rfl, rfl, rfl, rfl, rfl⟩

/-- C5: the scheduled retry delay is `min(1000ms · 2^retryCount, 60000ms)`;
at retry counts 0 and 1 it is exactly 1000ms and 2000ms. -/
theorem calculateRetryDelay_spec (retryCount : Nat) :
    calculateRetryDelay retryCount = min (1000 * 2 ^ retryCount) 60000
    ∧ calculateRetryDelay 0 = 1000
    ∧ calculateRetryDelay 1 = 2000 :=
  ⟨rfl, rfl, rfl⟩

/-- C6 (counterexample): recording `not_done` without a note on the concrete
checklist `chk0` is not rejected — the task entry is rewritten (the map
changes) and the stored entry carries `note = none`. -/
theorem updateTask_no_note_rejection_cex :
    ((updateTask chk0 "t1" TaskCompletionStatus.not_done none none 99).tasks ≠ chk0.tasks)
    ∧ (updateTask chk0 "t1" TaskCompletionStatus.not_done none none 99).tasks.find?
        (fun p => p.1 == "t1")
      = some ("t1", { taskId := "t1", status := TaskCompletionStatus.not_done,
                      completedAt := some 99, note := none, inputValue := none,
                      completedBy := some staff0 }) := by
  decide

/-- C6 (amended): `updateTask` performs no note validation: a `not_done`
update without a note (including one entered from the manager-override flow)
is accepted, and the entry is stored with `note = none`. -/
theorem updateTask_not_done_without_note_accepted (chk : ChecklistInstance)
    (taskId : String) (inputValue : Option Int) (now : Nat) :
    (updateTask chk taskId TaskCompletionStatus.not_done none inputValue now).tasks.find?
        (fun p => p.1 == taskId)
      = some (taskId, { taskId := taskId, status := TaskCompletionStatus.not_done,
                        completedAt := some now, note := none, inputValue := inputValue,
                        completedBy := some chk.startedBy }) :=
  find?_setTaskEntry chk.tasks taskId _

/-- C7 (behaviour of the code at the failing input): starting the
`pass_opening` checklist creates an in-progress instance on the local device
with every template task mapped to `not_done`, zero done/na counters, zero
completion percentage and a `checklist_started` audit entry — but it stores
`notDoneCount = 34` (the template defines 34 tasks) against
`totalTasks = 32` (the template's declared field), so
`notDoneCount = totalTasks` fails. -/
theorem startChecklist_pass_opening_eval :
    (startChecklist TemplateId.pass_opening staff0 "device-A" "chk-1" 777).1.status
        = ChecklistStatus.in_progress
    ∧ ((startChecklist TemplateId.pass_opening staff0 "device-A" "chk-1" 777).1.tasks.all
        (fun p => p.2.status == TaskCompletionStatus.not_done)) = true
    ∧ (startChecklist TemplateId.pass_opening staff0 "device-A" "chk-1" 777).1.deviceId
        = "device-A"
    ∧ (startChecklist TemplateId.pass_opening staff0 "device-A" "chk-1" 777).1.doneCount = 0
    ∧ (startChecklist TemplateId.pass_opening staff0 "device-A" "chk-1" 777).1.naCount = 0
    ∧ (startChecklist TemplateId.pass_opening staff0 "device-A" "chk-1" 777).1.completionPercentage
        = 0
    ∧ (startChecklist TemplateId.pass_opening staff0 "device-A" "chk-1" 777).1.notDoneCount = 34
    ∧ (startChecklist TemplateId.pass_opening staff0 "device-A" "chk-1" 777).1.totalTasks = 32
    ∧ (startChecklist TemplateId.pass_opening staff0 "device-A" "chk-1" 777).2
        = { action := "checklist_started", entityId := "chk-1", entityType := "checklist",
            performedBy := some "staff-1" } := by
  decide

/-- C10: every `updateTask` call stamps the rewritten entry with
`completedAt = now` and `completedBy = startedBy` — the operation takes no
per-task staff snapshot, so the recorded completer is never any staff member
other than whoever started the checklist. -/
theorem updateTask_completedBy_startedBy (chk : ChecklistInstance) (taskId : String)
    (status : TaskCompletionStatus) (note : Option String) (inputValue : Option Int)
    (now : Nat) :
    ((updateTask chk taskId status note inputValue now).tasks.find?
        (fun p => p.1 == taskId)
      = some (taskId, { taskId := taskId, status := status, completedAt := some now,
                        note := note, inputValue := inputValue,
                        completedBy := some chk.startedBy }))
    ∧ (∀ s : StaffReference, s ≠ chk.startedBy →
        ((updateTask chk taskId status note inputValue now).tasks.find?
            (fun p => p.1 == taskId)).map (fun p => p.2.completedBy)
          ≠ some (some s)) := by
  have hfind := find?_setTaskEntry chk.tasks taskId
    { taskId := taskId, status := status, completedAt := some now,
      note := note, inputValue := inputValue, completedBy := some chk.startedBy }
  have hfind2 : (updateTask chk taskId status note inputValue now).tasks.find?
      (fun p => p.1 == taskId)
      = some (taskId, { taskId := taskId, status := status, completedAt := some now,
                        note := note, inputValue := inputValue,
                        completedBy := some chk.startedBy }) := hfind
  refine ⟨hfind2, ?_⟩
  intro s hs hcon
  rw [hfind2] at hcon
  simp at hcon
  exact hs hcon.symm

/-- Concrete instantiation of `updateTask_completedBy_startedBy`: updating a
task on `chk0` records `staff0` as completer, and the recorded completer is
not the distinct staff member who actually did the task. -/
theorem updateTask_completedBy_startedBy_witness :
    ((updateTask chk0 "t1" TaskCompletionStatus.done none none 50).tasks.find?
        (fun p => p.1 == "t1")
      = some ("t1", { taskId := "t1", status := TaskCompletionStatus.done,
                      completedAt := some 50, note := none, inputValue := none,
                      completedBy := some chk0.startedBy }))
    ∧ ((updateTask chk0 "t1" TaskCompletionStatus.done none none 50).tasks.find?
          (fun p => p.1 == "t1")).map (fun p => p.2.completedBy)
        ≠ some (some { id := "staff-2", name := "Eli", role := StaffRole.staff }) :=
  ⟨(updateTask_completedBy_startedBy chk0 "t1" TaskCompletionStatus.done none none 50).1,
   (updateTask_completedBy_startedBy chk0 "t1" TaskCompletionStatus.done none none 50).2
     { id := "staff-2", name := "Eli", role := StaffRole.staff } (by decide)⟩

/-- A concrete submission snapshot used for evaluations. -/
def snapshot0 : SubmissionSnapshot :=
  { date := "2026-01-01", area := "Closing", templateName := "Closing Checklist",
    templateId := TemplateId.closing, staff := staff0,
    manager := { id := "mgr-1", name := "Alice", role := StaffRole.manager },
    completionPercentage := 100, doneCount := 1, notDoneCount := 0, naCount := 0,
    totalTasks := 1, startedAt := 1, submittedAt := 3, approvedAt := 4,
    tasks := [("t1", { taskId := "t1", status := TaskCompletionStatus.done })],
    deviceId := "device-A" }

/-- A submission whose sheets row is written and whose PDF is uploaded; only
the sheets row patch is outstanding. -/
def sub0 : PendingSubmission :=
  { id := "sub-0", checklistId := "chk-0", status := SubmissionStatus.sheets_done,
    pdfStatus := PdfStatus.uploaded, sheetsRowId := some "row-1",
    driveFileId := some "file-1", driveFileUrl := some "url-1",
    retryCount := 1, maxRetries := 5, createdAt := 5, lastAttemptAt := some 6,
    errorLog := [], snapshot := snapshot0 }

/-- A fully completed submission. -/
def sub1 : PendingSubmission :=
  { sub0 with status := SubmissionStatus.complete, completedAt := some 7 }

/-- C4: on a retry, every step recorded as completed in the persisted
`status`/`pdfStatus` fields is skipped; in particular a submission with
`status = sheets_done` and `pdfStatus = uploaded` performs exactly the one
network call `sheets_update` and none of `sheets_write`, `pdf_generate`,
`pdf_upload`. -/
theorem retrySteps_resumability (s : PendingSubmission) :
    (s.status = SubmissionStatus.sheets_done → s.pdfStatus = PdfStatus.uploaded →
      retrySteps s.status s.pdfStatus = [SyncStep.sheets_update])
    ∧ (s.status ≠ SubmissionStatus.pending →
        SyncStep.sheets_write ∉ retrySteps s.status s.pdfStatus)
    ∧ (s.pdfStatus ≠ PdfStatus.pending →
        SyncStep.pdf_generate ∉ retrySteps s.status s.pdfStatus)
    ∧ (s.pdfStatus = PdfStatus.uploaded →
        SyncStep.pdf_upload ∉ retrySteps s.status s.pdfStatus)
    ∧ (s.status = SubmissionStatus.complete →
        SyncStep.sheets_update ∉ retrySteps s.status s.pdfStatus) := by
  cases hst : s.status <;> cases hpf : s.pdfStatus <;> decide

/-- Concrete instantiation of `retrySteps_resumability` at `sub0`
(`sheets_done`/`uploaded`) and, for the last conjunct, at the completed
submission `sub1`. -/
theorem retrySteps_resumability_witness :
    retrySteps sub0.status sub0.pdfStatus = [SyncStep.sheets_update]
    ∧ SyncStep.sheets_write ∉ retrySteps sub0.status sub0.pdfStatus
    ∧ SyncStep.pdf_generate ∉ retrySteps sub0.status sub0.pdfStatus
    ∧ SyncStep.pdf_upload ∉ retrySteps sub0.status sub0.pdfStatus
    ∧ SyncStep.sheets_update ∉ retrySteps sub1.status sub1.pdfStatus :=
  ⟨(retrySteps_resumability sub0).1 rfl rfl,
   (retrySteps_resumability sub0).2.1 (by decide),
   (retrySteps_resumability sub0).2.2.1 (by decide),
   (retrySteps_resumability sub0).2.2.2.1 rfl,
   (retrySteps_resumability sub1).2.2.2.2 rfl⟩

/-- C8: on any store, `checkForActiveSessions` returns `none` exactly when no
stored instance matches the template with status `in_progress` or
`pending_review`; otherwise it returns the snapshot of a matching instance
whose `lastModifiedAt` is greatest (the first such in store order — the
stable descending sort is deterministic), with `isOwnDevice` true exactly
when that instance's `deviceId` equals the local device id. -/
theorem checkForActiveSessions_spec (store : List ChecklistInstance)
    (templateId : TemplateId) (deviceId : String) :
    (activeMatches store templateId = [] →
      checkForActiveSessions store templateId deviceId = none)
    ∧ (activeMatches store templateId ≠ [] →
        checkForActiveSessions store templateId deviceId ≠ none)
    ∧ (∀ s, checkForActiveSessions store templateId deviceId = some s →
        ∃ c, c ∈ activeMatches store templateId
          ∧ s = sessionSnapshot c deviceId
          ∧ (∀ d ∈ activeMatches store templateId,
              d.lastModifiedAt ≤ c.lastModifiedAt)
          ∧ (s.isOwnDevice = true ↔ c.deviceId = deviceId)) := by
  rcases h : activeMatches store templateId with _ | ⟨c, cs⟩
  · have hck : checkForActiveSessions store templateId deviceId = none := by
      simp only [checkForActiveSessions, h]
    refine ⟨fun _ => hck, fun hne => absurd rfl hne, fun s hs => ?_⟩
    rw [hck] at hs
    cases hs
  · have hck : checkForActiveSessions store templateId deviceId
        = some (sessionSnapshot (mostRecentOf c cs) deviceId) := by
      simp only [checkForActiveSessions, h]
    refine ⟨fun he => absurd he (List.cons_ne_nil c cs), fun _ => ?_, fun s hs => ?_⟩
    · rw [hck]
      simp
    · rw [hck] at hs
      have hseq : s = sessionSnapshot (mostRecentOf c cs) deviceId :=
        (Option.some.inj hs).symm
      refine ⟨mostRecentOf c cs, mostRecentOf_mem c cs, hseq, mostRecentOf_ge c cs, ?_⟩
      rw [hseq]
      simp [sessionSnapshot, beq_iff_eq]

/-- An in-progress closing checklist on another device, modified at time 10. -/
def chkA : ChecklistInstance :=
  { chk0 with
    id := "chk-A"
    status := ChecklistStatus.in_progress
    deviceId := "device-B"
    lastModifiedAt := 10 }

/-- A pending-review closing checklist on another device, modified at
time 20. -/
def chkB : ChecklistInstance :=
  { chk0 with
    id := "chk-B"
    status := ChecklistStatus.pending_review
    deviceId := "device-B"
    lastModifiedAt := 20 }

/-- A concrete checklist store with two active closing sessions. -/
def store0 : List ChecklistInstance := [chkA, chkB]

/-- Concrete instantiation of `checkForActiveSessions_spec` on `store0`:
querying `pass_opening` finds no match and returns `none`; querying `closing`
from device A returns the snapshot of the most recent match `chkB`, not on
the local device. -/
theorem checkForActiveSessions_spec_witness :
    checkForActiveSessions store0 TemplateId.pass_opening "device-A" = none
    ∧ checkForActiveSessions store0 TemplateId.closing "device-A" ≠ none
    ∧ ∃ c, c ∈ activeMatches store0 TemplateId.closing
        ∧ sessionSnapshot chkB "device-A" = sessionSnapshot c "device-A"
        ∧ (∀ d ∈ activeMatches store0 TemplateId.closing,
            d.lastModifiedAt ≤ c.lastModifiedAt)
        ∧ ((sessionSnapshot chkB "device-A").isOwnDevice = true
            ↔ c.deviceId = "device-A") :=
  ⟨(checkForActiveSessions_spec store0 TemplateId.pass_opening "device-A").1 (by decide),
   (checkForActiveSessions_spec store0 TemplateId.closing "device-A").2.1 (by decide),
   (checkForActiveSessions_spec store0 TemplateId.closing "device-A").2.2
     (sessionSnapshot chkB "device-A") (by decide)⟩

/-- C9: a submission request whose `submissionId` is missing, or whose
snapshot lacks any of the sixteen required fields, fails validation; the
endpoint answers it with HTTP 400 and `success = false`, and a 400 is
classified non-retryable. -/
theorem POST_missing_required_field (body : JsonValue)
    (h : getField body "submissionId" = none
         ∨ ∃ f ∈ requiredFields, hasSnapshotField body f = false) :
    (POSTsubmit body).httpStatus = 400
    ∧ (POSTsubmit body).success = false
    ∧ isRetryableStatusCode 400 = false := by
  have hval : validateSubmission body = false := by
    rcases body with _ | b | n | str | items | fields
    case jobj =>
      rcases h with h1 | ⟨f, hf, hsf⟩
      · simp only [validateSubmission, h1, Bool.false_and]
      · unfold hasSnapshotField at hsf
        cases hsnap : getField (JsonValue.jobj fields) "snapshot" with
        | none =>
          simp only [validateSubmission, hsnap, Bool.and_false]
        | some snap =>
          have hsf2 : (match jsonFieldKeys snap with
              | some keys => keys.contains f
              | none => false) = false := by
            rw [hsnap] at hsf
            exact hsf
          cases hkeys : jsonFieldKeys snap with
          | none =>
            simp only [validateSubmission, hsnap, hkeys, Bool.and_false]
          | some keys =>
            have hsf3 : keys.contains f = false := by
              rw [hkeys] at hsf2
              exact hsf2
            have hall : requiredFields.all (fun g => keys.contains g) = false := by
              cases hx : requiredFields.all (fun g => keys.contains g) with
              | false => rfl
              | true =>
                have := List.all_eq_true.1 hx f hf
                rw [hsf3] at this
                cases this
            simp only [validateSubmission, hsnap, hkeys, hall, Bool.and_false]
    all_goals rfl
  constructor
  · simp only [POSTsubmit, hval, Bool.false_eq_true, if_false]
  constructor
  · simp only [POSTsubmit, hval, Bool.false_eq_true, if_false]
  · rfl

/-- Concrete instantiation of `POST_missing_required_field`: a body with a
`submissionId` but no snapshot (hence no `date` field) is rejected with 400,
`success = false`, non-retryable. -/
theorem POST_missing_required_field_witness :
    (POSTsubmit (JsonValue.jobj [("submissionId", JsonValue.jstr "abc-123")])).httpStatus = 400
    ∧ (POSTsubmit (JsonValue.jobj [("submissionId", JsonValue.jstr "abc-123")])).success = false
    ∧ isRetryableStatusCode 400 = false :=
  POST_missing_required_field (JsonValue.jobj [("submissionId", JsonValue.jstr "abc-123")])
    (Or.inr ⟨"date", by decide, rfl⟩)

end RestaurantDuty
